import Mathlib

/-!
Verification development for the DocPulse document lifecycle tracker
(`docpulse/doctype/document_tracker_list/document_tracker_list.py` and
`docpulse/scheduler/daily_renewal_log.py`).

Shallow embedding conventions:
* Dates are modelled as `Int` day numbers; `getdate` is the identity,
  `add_days d k` is `d + k`, `date_diff a b` is `a - b`, and `today` is
  passed explicitly as a parameter.
* Frappe string fields default to the empty string; nullable fields are
  `Option`; checkbox fields (`is_expiry_based`, `is_renewable`) are `Bool`;
  the integer flags the code assigns as 0/1 are `Nat`.
* The record store is a `List TrackedDoc`; `frappe.get_doc` is lookup of
  the first document with a matching name, `frappe.get_all` is `List.filter`
  in store order, and a fallible operation returns `Except String`.
-/

/-- Child row of the `supplementary_documents` table, as copied by `renew`. -/
structure Attachment where
  attachment_type : Option String
  file : Option String
  description : Option String
deriving Repr, DecidableEq

/-- One `Document Tracker List` record, with the fields the Python code reads
or writes.  `modified` stands for the framework bookkeeping timestamp. -/
structure TrackedDoc where
  name : String
  document_name : String
  document_reference_no : Option String
  document_category : String
  authority : Option String
  company : String
  business_unit : Option String
  department : Option String
  owner_person : Option String
  counterparty_type : Option String
  counterparty : Option String
  issue_date : Option Int
  is_expiry_based : Bool
  expiry_date : Option Int
  is_renewable : Bool
  renewal_lead_time_type : String
  renewal_lead_time_days : Option Int
  custom_remind_from_date : Option Int
  remind_from_date : Option Int
  validity_remaining_days : Option Int
  flag_expiring_soon : Nat
  flag_overdue : Nat
  status : String
  lifecycle_state : String
  docstatus : Nat
  replaces_document : Option String
  renewed_by_document : Option String
  renewal_count : Option Int
  amended_from : Option String
  primary_document : Option String
  supplementary_documents : List Attachment
  modified : Int
deriving Repr, DecidableEq

/-- `frappe.get_doc("Document Tracker List", name)`: first store entry with
the given name, `none` when the lookup raises `DoesNotExistError`. -/
def getDoc (store : List TrackedDoc) (docname : String) : Option TrackedDoc :=
  store.find? (fun d => d.name == docname)

/-- `doc.save()` on an already-stored document: replace every store entry
bearing the document's name with the new version. -/
def saveDoc (store : List TrackedDoc) (doc : TrackedDoc) : List TrackedDoc :=
  store.map (fun d => if d.name == doc.name then doc else d)

/-- `DocumentTrackerList.determine_correct_status` (lines 34-62): status from
expiry and reminder conditions; "Renewal In Progress" is never produced here. -/
def determine_correct_status (today : Int) (self : TrackedDoc) : String :=
  if ¬ self.is_expiry_based ∨ self.expiry_date = none then "Active"
  else
    match self.expiry_date with
    | none => "Active"
    | some expiry_date =>
      if expiry_date < today then "Expired"
      else
        match self.remind_from_date with
        | some remind_date => if today ≥ remind_date then "Active Soon to Expire" else "Active"
        | none => "Active"

/-- `DocumentTrackerList.compute_remind_from_date` (lines 77-107). -/
def compute_remind_from_date (self : TrackedDoc) : TrackedDoc :=
  if ¬ self.is_expiry_based ∨ self.expiry_date = none then
    { self with remind_from_date := none }
  else if ¬ self.is_renewable then
    { self with remind_from_date := none }
  else
    match self.expiry_date with
    | none => { self with remind_from_date := none }
    | some expiry_date =>
      if self.renewal_lead_time_type = "Custom" then
        match self.custom_remind_from_date with
        | some c => { self with remind_from_date := some c }
        | none => { self with remind_from_date := none }
      else if self.renewal_lead_time_type = "1D" then
        { self with renewal_lead_time_days := some 1, remind_from_date := some (expiry_date - 1) }
      else if self.renewal_lead_time_type = "1W" then
        { self with renewal_lead_time_days := some 7, remind_from_date := some (expiry_date - 7) }
      else if self.renewal_lead_time_type = "1M" then
        { self with renewal_lead_time_days := some 30, remind_from_date := some (expiry_date - 30) }
      else if self.renewal_lead_time_type = "3M" then
        { self with renewal_lead_time_days := some 90, remind_from_date := some (expiry_date - 90) }
      else
        { self with remind_from_date := none }

/-- `DocumentTrackerList.compute_validity_fields` (lines 192-214). -/
def compute_validity_fields (today : Int) (self : TrackedDoc) : TrackedDoc :=
  if ¬ self.is_expiry_based ∨ self.expiry_date = none then
    { self with validity_remaining_days := none, flag_expiring_soon := 0, flag_overdue := 0 }
  else
    match self.expiry_date with
    | none => { self with validity_remaining_days := none, flag_expiring_soon := 0, flag_overdue := 0 }
    | some expiry_date =>
      let remaining_days := expiry_date - today
      let soon : Nat :=
        match self.remind_from_date with
        | some remind_date => if today ≥ remind_date then 1 else 0
        | none => 0
      { self with
          validity_remaining_days := some remaining_days,
          flag_expiring_soon := soon,
          flag_overdue := if remaining_days < 0 then 1 else 0 }

/-- The uniqueness-violation message of lines 152-158, with the conflicting
document name spliced in. -/
def uniquenessMsg (conflicting : String) : String :=
  "Only one Current document is allowed per Document Name, Category, and Company. Document "
    ++ conflicting ++ " is already marked as Current."

/-- `DocumentTrackerList.validate_current_document_uniqueness` (lines 109-158).
The store plays the role of the database queried by `frappe.get_all`. -/
def validate_current_document_uniqueness (store : List TrackedDoc) (self : TrackedDoc) :
    Except String Unit :=
  if self.lifecycle_state ≠ "Current" then .ok ()
  else if self.docstatus = 0 ∧ self.replaces_document.isSome then .ok ()
  else if self.amended_from.isSome then .ok ()
  else if self.company = "" ∨ self.document_name = "" ∨ self.document_category = "" then .ok ()
  else
    let existing_docs := store.filter (fun d =>
      d.company == self.company && d.document_name == self.document_name &&
      d.document_category == self.document_category && d.lifecycle_state == "Current" &&
      d.name != self.name && d.docstatus != 2 && d.status != "Cancelled")
    let existing_current := (existing_docs.filter (fun d => d.amended_from.isNone)).head?
    match existing_current with
    | none => .ok ()
    | some conflicting =>
      if self.docstatus = 1 ∧ self.replaces_document = some conflicting.name then .ok ()
      else .error (uniquenessMsg conflicting.name)

/-- `DocumentTrackerList.validate` (lines 11-32).  `new` is the framework's
`is_new()` flag: the record is being inserted for the first time. -/
def validate (store : List TrackedDoc) (today : Int) (new : Bool) (self : TrackedDoc) :
    Except String TrackedDoc :=
  let self := compute_remind_from_date self
  match validate_current_document_uniqueness store self with
  | .error e => .error e
  | .ok () =>
    let self := compute_validity_fields today self
    if self.document_name = "" then .error "Document Name is required"
    else if self.company = "" then .error "Company is required"
    else if self.docstatus = 1 ∧ self.is_expiry_based ∧ self.expiry_date = none then
      .error "Expiry Date is required when Is Expiry Based is checked"
    else if self.docstatus = 1 ∧ new then
      .ok { self with status := determine_correct_status today self }
    else .ok self

/-- `DocumentTrackerList.on_submit` (lines 64-75): archive the predecessor
named by `replaces_document`, if any.  Returns the updated store. -/
def on_submit (store : List TrackedDoc) (self : TrackedDoc) : Except String (List TrackedDoc) :=
  match self.replaces_document with
  | none => .ok store
  | some prev =>
    match getDoc store prev with
    | none => .error "DoesNotExistError"
    | some old_doc =>
      let old_doc := { old_doc with
        lifecycle_state := "Historical",
        status := "Renewed",
        renewed_by_document := some self.name,
        renewal_count := some (old_doc.renewal_count.getD 0 + 1) }
      .ok (saveDoc store old_doc)

/-- `frappe.new_doc("Document Tracker List")` under the given name: framework
defaults before `renew` fills fields in. -/
def newDocDefaults (docname : String) : TrackedDoc :=
  { name := docname, document_name := "", document_reference_no := none,
    document_category := "", authority := none, company := "",
    business_unit := none, department := none, owner_person := none,
    counterparty_type := none, counterparty := none, issue_date := none,
    is_expiry_based := false, expiry_date := none, is_renewable := false,
    renewal_lead_time_type := "", renewal_lead_time_days := none,
    custom_remind_from_date := none, remind_from_date := none,
    validity_remaining_days := none, flag_expiring_soon := 0, flag_overdue := 0,
    status := "", lifecycle_state := "", docstatus := 0,
    replaces_document := none, renewed_by_document := none, renewal_count := none,
    amended_from := none, primary_document := none, supplementary_documents := [],
    modified := 0 }

/-- `DocumentTrackerList.renew` (lines 216-270).  `newName` is the name the
store assigns to the inserted draft.  Returns the updated original and the
new draft; the Python method returns the draft's name. -/
def renew (today : Int) (newName : String) (self : TrackedDoc) :
    Except String (TrackedDoc × TrackedDoc) :=
  if ¬ self.is_renewable then .error "This document is not renewable."
  else if self.lifecycle_state ≠ "Current" then .error "Only Current documents can be renewed."
  else
    let new_doc := { newDocDefaults newName with
      document_name := self.document_name,
      document_reference_no := self.document_reference_no,
      document_category := self.document_category,
      authority := self.authority,
      company := self.company,
      business_unit := self.business_unit,
      department := self.department,
      owner_person := self.owner_person,
      counterparty_type := self.counterparty_type,
      counterparty := self.counterparty,
      issue_date := some today,
      is_expiry_based := self.is_expiry_based,
      expiry_date := self.expiry_date,
      is_renewable := self.is_renewable,
      renewal_lead_time_type := self.renewal_lead_time_type,
      custom_remind_from_date := self.custom_remind_from_date,
      lifecycle_state := "Current",
      replaces_document := some self.name,
      renewal_count := some 0,
      status := "Draft" }
    let new_doc :=
      match self.primary_document with
      | some p => { new_doc with primary_document := some p }
      | none => new_doc
    let new_doc := { new_doc with
      supplementary_documents := self.supplementary_documents.map (fun att =>
        { attachment_type := att.attachment_type, file := att.file,
          description := att.description }) }
    .ok ({ self with renewed_by_document := some new_doc.name }, new_doc)

/-- `DocumentTrackerList.get_root_document` (lines 160-172), with an explicit
fuel parameter standing for the unbounded `while` loop: walk
`replaces_document` backward, guarded by the visited set; a missing
predecessor (`DoesNotExistError`) ends the walk. -/
def get_root_documentFuel : Nat → List TrackedDoc → Finset String → TrackedDoc → TrackedDoc
  | 0, _, _, current => current
  | fuel + 1, store, visited, current =>
    match current.replaces_document with
    | none => current
    | some prev =>
      if prev ∈ visited then current
      else
        match getDoc store prev with
        | none => current
        | some nxt => get_root_documentFuel fuel store (insert current.name visited) nxt

/-- Fuel that is always sufficient for `get_root_documentFuel` (proved below). -/
def rootFuelBound (store : List TrackedDoc) : Nat :=
  2 * store.length + 2

/-- `get_root_document` run with sufficient fuel and an empty visited set. -/
def get_root_document (store : List TrackedDoc) (self : TrackedDoc) : TrackedDoc :=
  get_root_documentFuel (rootFuelBound store) store ∅ self

/-- `frappe.db.get_value("Document Tracker List", {"replaces_document": current_name}, "name")`:
name of the first store entry whose `replaces_document` is `current_name`. -/
def successor (store : List TrackedDoc) (current_name : String) : Option String :=
  (store.find? (fun d => d.replaces_document == some current_name)).map (fun d => d.name)

/-- `DocumentTrackerList.get_chain_documents` (lines 174-190), with fuel for
the unbounded `while True` loop: `some chain` when the loop broke out on its
own, `none` when the fuel ran out first. -/
def get_chain_documentsFuel : Nat → List TrackedDoc → String → List String → Option (List String)
  | 0, _, _, _ => none
  | fuel + 1, store, current_name, chain =>
    match successor store current_name with
    | none => some chain
    | some renewed_by => get_chain_documentsFuel fuel store renewed_by (chain ++ [renewed_by])

/-- The forward chain walk terminates: some fuel makes the loop break out. -/
def chainTerminates (store : List TrackedDoc) (root_name : String) : Prop :=
  ∃ fuel chain, get_chain_documentsFuel fuel store root_name [root_name] = some chain

/-- A field value in the record's dynamic dictionary (`self.as_dict()`). -/
inductive FieldVal
  | s : String → FieldVal
  | os : Option String → FieldVal
  | oi : Option Int → FieldVal
  | n : Nat → FieldVal
  | b : Bool → FieldVal
  | i : Int → FieldVal
  | atts : List Attachment → FieldVal
deriving Repr, DecidableEq

/-- The record as a field-name/value dictionary, as iterated by
`validate_update_after_submit` over `self.as_dict()`. -/
def fieldsOf (d : TrackedDoc) : List (String × FieldVal) :=
  [("name", .s d.name),
   ("document_name", .s d.document_name),
   ("document_reference_no", .os d.document_reference_no),
   ("document_category", .s d.document_category),
   ("authority", .os d.authority),
   ("company", .s d.company),
   ("business_unit", .os d.business_unit),
   ("department", .os d.department),
   ("owner_person", .os d.owner_person),
   ("counterparty_type", .os d.counterparty_type),
   ("counterparty", .os d.counterparty),
   ("issue_date", .oi d.issue_date),
   ("is_expiry_based", .b d.is_expiry_based),
   ("expiry_date", .oi d.expiry_date),
   ("is_renewable", .b d.is_renewable),
   ("renewal_lead_time_type", .s d.renewal_lead_time_type),
   ("renewal_lead_time_days", .oi d.renewal_lead_time_days),
   ("custom_remind_from_date", .oi d.custom_remind_from_date),
   ("remind_from_date", .oi d.remind_from_date),
   ("validity_remaining_days", .oi d.validity_remaining_days),
   ("flag_expiring_soon", .n d.flag_expiring_soon),
   ("flag_overdue", .n d.flag_overdue),
   ("status", .s d.status),
   ("lifecycle_state", .s d.lifecycle_state),
   ("docstatus", .n d.docstatus),
   ("replaces_document", .os d.replaces_document),
   ("renewed_by_document", .os d.renewed_by_document),
   ("renewal_count", .oi d.renewal_count),
   ("amended_from", .os d.amended_from),
   ("primary_document", .os d.primary_document),
   ("supplementary_documents", .atts d.supplementary_documents),
   ("modified", .i d.modified)]

/-- The post-submit allow-list of `validate_update_after_submit` (lines 333-341). -/
def allowed_fields : List String :=
  ["status", "lifecycle_state", "remind_from_date", "flag_expiring_soon",
   "flag_overdue", "renewal_count", "renewed_by_document"]

/-- The framework bookkeeping fields ignored by the guard (line 343). -/
def meta_fields : List String :=
  ["modified", "modified_by", "_user_tags", "_assign", "_comments", "_liked_by"]

/-- The `dirty`/`disallowed` computation of `validate_update_after_submit`
(lines 345-360): field names whose current value differs from the
before-save snapshot, minus the framework bookkeeping fields, minus the
allow-list. -/
def disallowedFields (b self : TrackedDoc) : List String :=
  let current := fieldsOf self
  let dirty := (current.filter
    (fun p => decide ((fieldsOf b).lookup p.1 ≠ some p.2))).map Prod.fst
  let dirty := dirty.filter (fun f => decide (f ∉ meta_fields))
  dirty.filter (fun f => decide (f ∉ allowed_fields))

/-- `DocumentTrackerList.validate_update_after_submit` (lines 328-366).
`before` is `get_doc_before_save()`, `none` when no snapshot is available. -/
def validate_update_after_submit (before : Option TrackedDoc) (self : TrackedDoc) :
    Except (List String) Unit :=
  if self.docstatus ≠ 1 then .ok ()
  else
    match before with
    | none => .ok ()
    | some b =>
      let disallowed := disallowedFields b self
      if disallowed = [] then .ok () else .error disallowed

/-- Child row of a `Document Tracker Renewal Log` (the fields appended by
`create_renewal_log_for_company`). -/
structure RenewalLine where
  document : String
  document_name : String
  category : String
  authority : Option String
  issue_date : Option Int
  expiry_date : Option Int
  remind_from_date : Option Int
  days_to_expiry : Int
  severity : String
  owner_person : Option String
  current_status : String
deriving Repr, DecidableEq

/-- A `Document Tracker Renewal Log` record; `docstatus = 1` once submitted. -/
structure RenewalLog where
  company : String
  log_date : Int
  renewal_pending_items : List RenewalLine
  docstatus : Nat
deriving Repr, DecidableEq

/-- `get_documents_for_renewal` (`daily_renewal_log.py` lines 118-162): the
filtered query followed by the expiry/remind loop. -/
def get_documents_for_renewal (store : List TrackedDoc) (company : String)
    (today_date : Int) : List TrackedDoc :=
  let all_documents := store.filter (fun d =>
    d.company == company && d.is_expiry_based && d.is_renewable &&
    d.lifecycle_state == "Current" && d.docstatus == 1 &&
    !(["Draft", "Renewed", "Revoked", "Cancelled"].contains d.status))
  all_documents.filter (fun d =>
    d.expiry_date.isSome &&
    (match d.remind_from_date with
     | some r => decide (r ≤ today_date)
     | none => false))

/-- One appended child row (`daily_renewal_log.py` lines 81-105).  `getdate`
of a missing expiry date falls back to today, making `days_to_expiry` zero;
the caller guarantees the expiry date is present. -/
def renewalLine (today_date : Int) (doc : TrackedDoc) : RenewalLine :=
  let expiry_date := doc.expiry_date.getD today_date
  let days_to_expiry := expiry_date - today_date
  let severity :=
    if days_to_expiry < 0 then "Overdue"
    else if days_to_expiry = 0 then "Due Today"
    else "Due Soon"
  { document := doc.name, document_name := doc.document_name,
    category := doc.document_category, authority := doc.authority,
    issue_date := doc.issue_date, expiry_date := doc.expiry_date,
    remind_from_date := doc.remind_from_date, days_to_expiry := days_to_expiry,
    severity := severity, owner_person := doc.owner_person,
    current_status := doc.status }

/-- `create_renewal_log_for_company` (`daily_renewal_log.py` lines 57-115):
`none` when no document qualifies (no log is created), otherwise the single
inserted-and-submitted log. -/
def create_renewal_log_for_company (store : List TrackedDoc) (company : String)
    (today_date : Int) : Option RenewalLog :=
  let documents := get_documents_for_renewal store company today_date
  if documents.isEmpty then none
  else
    some { company := company, log_date := today_date,
           renewal_pending_items := documents.map (renewalLine today_date),
           docstatus := 1 }

/-- Claim C7: `determine_correct_status` is a pure function of
(`is_expiry_based`, `expiry_date`, `remind_from_date`, `today`); it returns
Active when the document is not expiry-based or has no expiry date, Expired
when the expiry date is past, "Active Soon to Expire" once the reminder date
is reached, Active otherwise, and never "Renewal In Progress". -/
theorem C7_determine_correct_status (d d' : TrackedDoc) (today : Int) :
    (d.is_expiry_based = d'.is_expiry_based → d.expiry_date = d'.expiry_date →
      d.remind_from_date = d'.remind_from_date →
      determine_correct_status today d = determine_correct_status today d') ∧
    ((¬ d.is_expiry_based ∨ d.expiry_date = none) →
      determine_correct_status today d = "Active") ∧
    (∀ e, d.is_expiry_based → d.expiry_date = some e → e < today →
      determine_correct_status today d = "Expired") ∧
    (∀ e r, d.is_expiry_based → d.expiry_date = some e → ¬ e < today →
      d.remind_from_date = some r → r ≤ today →
      determine_correct_status today d = "Active Soon to Expire") ∧
    (∀ e, d.is_expiry_based → d.expiry_date = some e → ¬ e < today →
      (∀ r, d.remind_from_date = some r → today < r) →
      determine_correct_status today d = "Active") ∧
    determine_correct_status today d ≠ "Renewal In Progress" := by
  refine ⟨?_, ?_, ?_, ?_, ?_, ?_⟩
  · intro h1 h2 h3
    simp only [determine_correct_status, h1, h2, h3]
  · intro h
    rcases h with h | h
    · simp [determine_correct_status, h]
    · simp [determine_correct_status, h]
  · intro e hb he hlt
    simp [determine_correct_status, hb, he, hlt]
  · intro e r hb he hge hr hrle
    simp [determine_correct_status, hb, he, hge, hr, ge_iff_le, hrle]
  · intro e hb he hge hr
    rcases hrm : d.remind_from_date with _ | r
    · simp [determine_correct_status, hb, he, hge, hrm]
    · have hlt := hr r hrm
      simp [determine_correct_status, hb, he, hge, hrm, not_le.mpr hlt]
  · rcases he : d.expiry_date with _ | e <;> rcases hrm : d.remind_from_date with _ | r <;>
      simp only [determine_correct_status, he, hrm] <;> split_ifs <;> decide

/-- Concrete document for the C7 witness: expiry five days out, reminder
date reached today. -/
def c7Doc : TrackedDoc :=
  { newDocDefaults "C7-DOC" with
      is_expiry_based := true, expiry_date := some 105, remind_from_date := some 100 }

/-- Witness for C7 at a concrete input. -/
theorem C7_witness : determine_correct_status 100 c7Doc = "Active Soon to Expire" :=
  (C7_determine_correct_status c7Doc c7Doc 100).2.2.2.1 105 100 rfl rfl
    (by decide) rfl (by decide)

/-- Claim C6: `compute_remind_from_date` clears the reminder date when the
document is not expiry-based, lacks an expiry date, is not renewable, or has
an unrecognized lead-time type; copies `custom_remind_from_date` verbatim for
type Custom; and for 1D/1W/1M/3M sets `renewal_lead_time_days` to 1/7/30/90
and the reminder date to the expiry date minus that many days. -/
theorem C6_compute_remind_from_date (d : TrackedDoc) :
    ((¬ d.is_expiry_based ∨ d.expiry_date = none) →
      (compute_remind_from_date d).remind_from_date = none) ∧
    (¬ d.is_renewable → (compute_remind_from_date d).remind_from_date = none) ∧
    (∀ e, d.is_expiry_based → d.expiry_date = some e → d.is_renewable →
      d.renewal_lead_time_type ∉ ["Custom", "1D", "1W", "1M", "3M"] →
      (compute_remind_from_date d).remind_from_date = none) ∧
    (∀ e, d.is_expiry_based → d.expiry_date = some e → d.is_renewable →
      d.renewal_lead_time_type = "Custom" →
      (compute_remind_from_date d).remind_from_date = d.custom_remind_from_date) ∧
    (∀ e, d.is_expiry_based → d.expiry_date = some e → d.is_renewable →
      d.renewal_lead_time_type = "1D" →
      (compute_remind_from_date d).remind_from_date = some (e - 1) ∧
      (compute_remind_from_date d).renewal_lead_time_days = some 1) ∧
    (∀ e, d.is_expiry_based → d.expiry_date = some e → d.is_renewable →
      d.renewal_lead_time_type = "1W" →
      (compute_remind_from_date d).remind_from_date = some (e - 7) ∧
      (compute_remind_from_date d).renewal_lead_time_days = some 7) ∧
    (∀ e, d.is_expiry_based → d.expiry_date = some e → d.is_renewable →
      d.renewal_lead_time_type = "1M" →
      (compute_remind_from_date d).remind_from_date = some (e - 30) ∧
      (compute_remind_from_date d).renewal_lead_time_days = some 30) ∧
    (∀ e, d.is_expiry_based → d.expiry_date = some e → d.is_renewable →
      d.renewal_lead_time_type = "3M" →
      (compute_remind_from_date d).remind_from_date = some (e - 90) ∧
      (compute_remind_from_date d).renewal_lead_time_days = some 90) := by
  refine ⟨?_, ?_, ?_, ?_, ?_, ?_, ?_, ?_⟩
  · intro h
    rcases h with h | h
    · simp [compute_remind_from_date, h]
    · simp [compute_remind_from_date, h]
  · intro hr
    by_cases h1 : ¬ d.is_expiry_based ∨ d.expiry_date = none
    · rcases h1 with h | h
      · simp [compute_remind_from_date, h]
      · simp [compute_remind_from_date, h]
    · push_neg at h1
      rcases Option.ne_none_iff_exists'.mp h1.2 with ⟨e, he⟩
      simp [compute_remind_from_date, h1.1, he, hr]
  · intro e hb he hrn hmem
    simp only [List.mem_cons, List.mem_singleton, not_or] at hmem
    obtain ⟨h1, h2, h3, h4, h5, -⟩ := hmem
    simp [compute_remind_from_date, hb, he, hrn, h1, h2, h3, h4, h5]
  · intro e hb he hrn ht
    rcases hc : d.custom_remind_from_date with _ | c <;>
      simp [compute_remind_from_date, hb, he, hrn, ht, hc]
  · intro e hb he hrn ht
    simp [compute_remind_from_date, hb, he, hrn, ht]
  · intro e hb he hrn ht
    simp [compute_remind_from_date, hb, he, hrn, ht]
  · intro e hb he hrn ht
    simp [compute_remind_from_date, hb, he, hrn, ht]
  · intro e hb he hrn ht
    simp [compute_remind_from_date, hb, he, hrn, ht]

/-- Concrete document for the C6 witness: one-month lead on an expiry at
day 200. -/
def c6Doc : TrackedDoc :=
  { newDocDefaults "C6-DOC" with
      is_expiry_based := true, expiry_date := some 200, is_renewable := true,
      renewal_lead_time_type := "1M" }

/-- Witness for C6 at a concrete input. -/
theorem C6_witness :
    (compute_remind_from_date c6Doc).remind_from_date = some 170 ∧
    (compute_remind_from_date c6Doc).renewal_lead_time_days = some 30 :=
  (C6_compute_remind_from_date c6Doc).2.2.2.2.2.2.1 200 rfl rfl rfl rfl

/-- Claim C10: a Current record in which `company`, `document_name`, or
`document_category` is empty is never checked against duplicates —
`validate_current_document_uniqueness` returns without error for it,
whatever the rest of the store contains. -/
theorem C10_empty_identity_skips_uniqueness (store : List TrackedDoc) (self : TrackedDoc)
    (hl : self.lifecycle_state = "Current")
    (he : self.company = "" ∨ self.document_name = "" ∨ self.document_category = "") :
    validate_current_document_uniqueness store self = .ok () := by
  unfold validate_current_document_uniqueness
  rw [if_neg (by simp [hl])]
  split_ifs <;> rfl

/-- Stored duplicate for the C10 witness: Current, submitted, same company
and document name, empty category. -/
def c10Dup : TrackedDoc :=
  { newDocDefaults "C10-DUP" with
      document_name := "GST Registration", company := "Acme",
      lifecycle_state := "Current", docstatus := 1, status := "Active" }

/-- Record under validation for the C10 witness: shares the remaining
identity fields with `c10Dup` but has an empty `document_category`. -/
def c10Self : TrackedDoc :=
  { newDocDefaults "C10-SELF" with
      document_name := "GST Registration", company := "Acme",
      lifecycle_state := "Current" }

/-- Witness for C10 at a concrete input. -/
theorem C10_witness : validate_current_document_uniqueness [c10Dup] c10Self = .ok () :=
  C10_empty_identity_skips_uniqueness [c10Dup] c10Self rfl (Or.inr (Or.inr rfl))

/-- `compute_remind_from_date` never touches `status` or `docstatus`. -/
theorem compute_remind_from_date_frame (d : TrackedDoc) :
    (compute_remind_from_date d).status = d.status ∧
    (compute_remind_from_date d).docstatus = d.docstatus := by
  unfold compute_remind_from_date
  repeat' split
  all_goals exact ⟨rfl, rfl⟩

/-- `compute_validity_fields` never touches `status` or `docstatus`. -/
theorem compute_validity_fields_frame (today : Int) (d : TrackedDoc) :
    (compute_validity_fields today d).status = d.status ∧
    (compute_validity_fields today d).docstatus = d.docstatus := by
  unfold compute_validity_fields
  repeat' split
  all_goals exact ⟨rfl, rfl⟩

/-- Claim C2: a successful `validate` overwrites `status` with the value of
`determine_correct_status` exactly on a first submission (`docstatus = 1` and
the record is new); on every other successful save it leaves `status` as the
caller set it. -/
theorem C2_validate_first_submit_status (store : List TrackedDoc) (today : Int)
    (new : Bool) (self self' : TrackedDoc)
    (h : validate store today new self = .ok self') :
    (self.docstatus = 1 ∧ new = true →
      self'.status = determine_correct_status today self') ∧
    (¬ (self.docstatus = 1 ∧ new = true) → self'.status = self.status) := by
  simp only [validate] at h
  cases hu : validate_current_document_uniqueness store (compute_remind_from_date self) with
  | error e => rw [hu] at h; simp at h
  | ok u =>
    cases u
    rw [hu] at h
    dsimp only [] at h
    have hds : (compute_validity_fields today (compute_remind_from_date self)).docstatus
        = self.docstatus := by
      rw [(compute_validity_fields_frame today _).2, (compute_remind_from_date_frame self).2]
    have hst : (compute_validity_fields today (compute_remind_from_date self)).status
        = self.status := by
      rw [(compute_validity_fields_frame today _).1, (compute_remind_from_date_frame self).1]
    split_ifs at h with h1 h2 h3 h4
    · injection h with h
      subst h
      constructor
      · intro _
        rfl
      · intro hn
        rw [hds] at h4
        exact absurd h4 hn
    · injection h with h
      subst h
      constructor
      · intro hc
        rw [hds] at h4
        exact absurd hc h4
      · intro _
        exact hst

/-- Concrete record for the C2 witness: first submission with a caller-set
status of "Cancelled"; `validate` forces it to "Active". -/
def c2Doc : TrackedDoc :=
  { newDocDefaults "C2-DOC" with
      document_name := "GST Registration", company := "Acme",
      docstatus := 1, lifecycle_state := "Historical", status := "Cancelled" }

/-- Witness for C2 at a concrete input. -/
theorem C2_witness :
    validate [] 50 true c2Doc = .ok { c2Doc with status := "Active" } ∧
    ({ c2Doc with status := "Active" } : TrackedDoc).status =
      determine_correct_status 50 { c2Doc with status := "Active" } := by
  have hv : validate [] 50 true c2Doc = .ok { c2Doc with status := "Active" } := by rfl
  exact ⟨hv, (C2_validate_first_submit_status [] 50 true c2Doc _ hv).1 ⟨rfl, rfl⟩⟩

/-- Claim C4: `renew` fails exactly when the document is not renewable or not
Current; on success it creates one new Draft with `replaces_document` set to
the original, `renewal_count = 0`, `status = Draft`, `lifecycle_state =
Current`, and `issue_date = today`, and the only field it changes on the
original is `renewed_by_document`. -/
theorem C4_renew (today : Int) (newName : String) (self : TrackedDoc) :
    ((∃ pr, renew today newName self = .ok pr) ↔
      self.is_renewable ∧ self.lifecycle_state = "Current") ∧
    (∀ orig nd, renew today newName self = .ok (orig, nd) →
      nd.name = newName ∧ nd.replaces_document = some self.name ∧
      nd.renewal_count = some 0 ∧ nd.status = "Draft" ∧ nd.docstatus = 0 ∧
      nd.lifecycle_state = "Current" ∧ nd.issue_date = some today ∧
      orig = { self with renewed_by_document := some newName } ∧
      orig.status = self.status ∧ orig.lifecycle_state = self.lifecycle_state) := by
  constructor
  · constructor
    · rintro ⟨pr, hpr⟩
      unfold renew at hpr
      split_ifs at hpr with hr hl
      exact ⟨hr, not_ne_iff.mp hl⟩
    · rintro ⟨h1, h2⟩
      unfold renew
      rw [if_neg (by simp [h1]), if_neg (by simp [h2])]
      exact ⟨_, rfl⟩
  · intro orig nd h
    unfold renew at h
    split_ifs at h with hr hl
    rcases hp : self.primary_document with _ | p <;> rw [hp] at h <;>
        · injection h with h
          obtain ⟨rfl, rfl⟩ := (Prod.mk.injEq _ _ _ _).mp h
          exact ⟨rfl, rfl, rfl, rfl, rfl, rfl, rfl, rfl, rfl, rfl⟩

/-- Original document for the C4 witness: Current and renewable. -/
def c4Doc : TrackedDoc :=
  { newDocDefaults "C4-ORIG" with
      document_name := "Trade License", company := "Acme",
      lifecycle_state := "Current", is_renewable := true,
      docstatus := 1, status := "Active" }

/-- The draft that `renew 300 "C4-NEW"` creates from `c4Doc`. -/
def c4New : TrackedDoc :=
  { newDocDefaults "C4-NEW" with
      document_name := "Trade License", company := "Acme", issue_date := some 300,
      is_renewable := true, lifecycle_state := "Current",
      replaces_document := some "C4-ORIG", renewal_count := some 0, status := "Draft" }

/-- Witness for C4 at a concrete input. -/
theorem C4_witness :
    c4New.replaces_document = some c4Doc.name ∧ c4New.renewal_count = some 0 ∧
    c4New.status = "Draft" ∧ c4New.docstatus = 0 := by
  have h : renew 300 "C4-NEW" c4Doc =
      .ok ({ c4Doc with renewed_by_document := some "C4-NEW" }, c4New) := by rfl
  obtain ⟨-, h2, h3, h4, h5, -, -, -, -, -⟩ := (C4_renew 300 "C4-NEW" c4Doc).2 _ _ h
  exact ⟨h2, h3, h4, h5⟩

/-- A successful `getDoc` returns a store member bearing the looked-up name. -/
theorem getDoc_eq_some (store : List TrackedDoc) (docname : String) (d : TrackedDoc)
    (h : getDoc store docname = some d) : d.name = docname ∧ d ∈ store := by
  unfold getDoc at h
  refine ⟨?_, List.mem_of_find?_eq_some h⟩
  have := List.find?_some h
  simpa using this

/-- Looking up the saved document's name after `saveDoc` yields the new
version. -/
theorem getDoc_saveDoc (store : List TrackedDoc) (docname : String) (old nw : TrackedDoc)
    (h : getDoc store docname = some old) (hn : nw.name = old.name) :
    getDoc (saveDoc store nw) docname = some nw := by
  have hname := (getDoc_eq_some store docname old h).1
  induction store with
  | nil => simp [getDoc] at h
  | cons a tl ih =>
    by_cases ha : a.name = docname
    · have haold : old = a := by
        simp [getDoc, List.find?_cons, ha] at h
        exact h.symm
      subst haold
      simp [getDoc, saveDoc, List.find?_cons, ha, hn]
    · have h' : getDoc tl docname = some old := by
        simpa [getDoc, List.find?_cons, beq_eq_false_iff_ne.mpr ha] using h
      have hann : a.name ≠ nw.name := by
        rw [hn, hname]
        exact ha
      have hrec := ih h'
      simp only [getDoc, saveDoc, List.map_cons, List.find?_cons] at hrec ⊢
      rw [if_neg (by simp [hann])]
      rw [show (a.name == docname) = false from beq_eq_false_iff_ne.mpr ha]
      exact hrec

/-- `saveDoc` leaves every differently-named document in the store. -/
theorem mem_saveDoc_of_ne (store : List TrackedDoc) (nw d : TrackedDoc)
    (hd : d ∈ store) (hne : d.name ≠ nw.name) : d ∈ saveDoc store nw := by
  unfold saveDoc
  exact List.mem_map.mpr ⟨d, hd, by simp [hne]⟩

/-- Claim C8: submitting a record that replaces a predecessor archives that
predecessor — `lifecycle_state = Historical`, `status = Renewed`,
`renewed_by_document` set to the submitting record, `renewal_count`
incremented — and leaves every other record as it was; with no
`replaces_document`, `on_submit` changes no record at all. -/
theorem C8_on_submit (store : List TrackedDoc) (self : TrackedDoc) :
    (self.replaces_document = none → on_submit store self = .ok store) ∧
    (∀ prev old, self.replaces_document = some prev → getDoc store prev = some old →
      ∃ store', on_submit store self = .ok store' ∧
        getDoc store' prev = some { old with
          lifecycle_state := "Historical", status := "Renewed",
          renewed_by_document := some self.name,
          renewal_count := some (old.renewal_count.getD 0 + 1) } ∧
        store'.length = store.length ∧
        ∀ d ∈ store, d.name ≠ prev → d ∈ store') := by
  constructor
  · intro h
    unfold on_submit
    rw [h]
  · intro prev old hrep hget
    have hname := (getDoc_eq_some store prev old hget).1
    refine ⟨saveDoc store { old with
        lifecycle_state := "Historical", status := "Renewed",
        renewed_by_document := some self.name,
        renewal_count := some (old.renewal_count.getD 0 + 1) }, ?_, ?_, ?_, ?_⟩
    · simp only [on_submit, hrep, hget]
    · exact getDoc_saveDoc store prev old _ hget rfl
    · simp [saveDoc]
    · intro d hd hne
      exact mem_saveDoc_of_ne store _ d hd (by simpa [hname] using hne)

/-- Predecessor record for the C8 witness. -/
def c8Old : TrackedDoc :=
  { newDocDefaults "C8-OLD" with
      document_name := "Trade License", company := "Acme",
      lifecycle_state := "Current", status := "Active", docstatus := 1,
      renewal_count := some 0 }

/-- Submitting renewal record for the C8 witness. -/
def c8New : TrackedDoc :=
  { newDocDefaults "C8-NEW" with
      document_name := "Trade License", company := "Acme",
      lifecycle_state := "Current", status := "Active", docstatus := 1,
      replaces_document := some "C8-OLD" }

/-- The predecessor after `on_submit` of `c8New` archives it. -/
def c8Upd : TrackedDoc :=
  { c8Old with
      lifecycle_state := "Historical", status := "Renewed",
      renewed_by_document := some "C8-NEW", renewal_count := some 1 }

/-- Witness for C8 at a concrete input. -/
theorem C8_witness :
    ((on_submit [c8Old] c8New).toOption.bind (fun st => getDoc st "C8-OLD")) = some c8Upd := by
  obtain ⟨st, h1, h2, -, -⟩ :=
    (C8_on_submit [c8Old] c8New).2 "C8-OLD" c8Old rfl (by rfl)
  rw [h1]
  show getDoc st "C8-OLD" = some c8Upd
  rw [h2]
  decide

/-- Membership in `disallowedFields`, spelled out. -/
theorem mem_disallowedFields (b c : TrackedDoc) (f : String) :
    f ∈ disallowedFields b c ↔
      ∃ v, (f, v) ∈ fieldsOf c ∧ f ∉ meta_fields ∧ f ∉ allowed_fields ∧
        (fieldsOf b).lookup f ≠ some v := by
  unfold disallowedFields
  simp only [List.mem_filter, List.mem_map, decide_eq_true_eq, ne_eq]
  constructor
  · rintro ⟨⟨⟨p, ⟨hin, hne⟩, rfl⟩, hm⟩, ha⟩
    exact ⟨p.2, by simpa using hin, hm, ha, hne⟩
  · rintro ⟨v, hin, hm, ha, hne⟩
    exact ⟨⟨⟨(f, v), ⟨hin, hne⟩, rfl⟩, hm⟩, ha⟩

/-- Claim C5: for a submitted record, the post-submit guard passes exactly
when every changed field is on the allow-list (or is framework bookkeeping),
and on failure it reports precisely the offending field names. -/
theorem C5_post_submit_guard (b c : TrackedDoc) (hdoc : c.docstatus = 1) :
    (validate_update_after_submit (some b) c = .ok () ↔
      ∀ p ∈ fieldsOf c, p.1 ∈ allowed_fields ∨ p.1 ∈ meta_fields ∨
        (fieldsOf b).lookup p.1 = some p.2) ∧
    (∀ L, validate_update_after_submit (some b) c = .error L →
      ∀ f, (f ∈ L ↔ ∃ v, (f, v) ∈ fieldsOf c ∧ f ∉ meta_fields ∧ f ∉ allowed_fields ∧
        (fieldsOf b).lookup f ≠ some v)) := by
  have hiff : disallowedFields b c = [] ↔
      ∀ p ∈ fieldsOf c, p.1 ∈ allowed_fields ∨ p.1 ∈ meta_fields ∨
        (fieldsOf b).lookup p.1 = some p.2 := by
    rw [List.eq_nil_iff_forall_not_mem]
    constructor
    · intro hnone p hp
      by_contra hcon
      push_neg at hcon
      obtain ⟨h1, h2, h3⟩ := hcon
      exact hnone p.1 ((mem_disallowedFields b c p.1).mpr
        ⟨p.2, by simpa using hp, h2, h1, h3⟩)
    · intro hall f hf
      obtain ⟨v, hin, hm, ha, hne⟩ := (mem_disallowedFields b c f).mp hf
      rcases hall (f, v) hin with h | h | h
      · exact ha h
      · exact hm h
      · exact hne h
  simp only [validate_update_after_submit, hdoc]
  by_cases hd : disallowedFields b c = []
  · rw [if_neg (by simp), if_pos hd]
    constructor
    · simp only [true_iff, iff_true]
      exact hiff.mp hd
    · intro L hL
      simp at hL
  · rw [if_neg (by simp), if_neg hd]
    constructor
    · constructor
      · intro hcon
        simp at hcon
      · intro hall
        exact absurd (hiff.mpr hall) hd
    · intro L hL
      injection hL with hL
      subst hL
      intro f
      exact mem_disallowedFields b c f

/-- Before-save snapshot for the C5 witness: a submitted record. -/
def c5Before : TrackedDoc :=
  { newDocDefaults "C5-DOC" with
      document_name := "GST Registration", company := "Acme",
      lifecycle_state := "Current", status := "Active", docstatus := 1,
      modified := 10 }

/-- In-memory record for the C5 witness: only `status` (allow-listed) and
`modified` (framework bookkeeping) changed. -/
def c5After : TrackedDoc :=
  { c5Before with status := "Expired", modified := 11 }

/-- Witness for C5 at a concrete input: the status-only change passes. -/
theorem C5_witness : validate_update_after_submit (some c5Before) c5After = .ok () :=
  (C5_post_submit_guard c5Before c5After rfl).1.mpr (by decide)

/-- Existing Current record for the C1 counterexample. -/
def c1First : TrackedDoc :=
  { newDocDefaults "DTL-0001" with
      document_name := "GST Registration", document_category := "License",
      company := "Acme", lifecycle_state := "Current", status := "Active",
      docstatus := 1 }

/-- Second record for the C1 counterexample: a draft sharing the triple whose
`replaces_document` names some unrelated record, not `c1First`. -/
def c1Second : TrackedDoc :=
  { newDocDefaults "DTL-0002" with
      document_name := "GST Registration", document_category := "License",
      company := "Acme", lifecycle_state := "Current", status := "Draft",
      docstatus := 0, replaces_document := some "DTL-9999" }

/-- Counterexample to C1 as stated: both records are non-cancelled,
non-amended, Current, and share the (company, document_name,
document_category) triple; the second record's `replaces_document` does NOT
equal the first record's id; yet validation returns without error, because
the code skips the uniqueness check for any unsubmitted draft that has
`replaces_document` set — whatever it points to. -/
theorem C1_counterexample :
    c1First.lifecycle_state = "Current" ∧ c1Second.lifecycle_state = "Current" ∧
    c1First.docstatus ≠ 2 ∧ c1Second.docstatus ≠ 2 ∧
    c1First.status ≠ "Cancelled" ∧ c1Second.status ≠ "Cancelled" ∧
    c1First.amended_from = none ∧ c1Second.amended_from = none ∧
    c1Second.company = c1First.company ∧
    c1Second.document_name = c1First.document_name ∧
    c1Second.document_category = c1First.document_category ∧
    c1Second.replaces_document ≠ some c1First.name ∧
    validate_current_document_uniqueness [c1First] c1Second = .ok () := by
  refine ⟨rfl, rfl, ?_, ?_, ?_, ?_, rfl, rfl, rfl, rfl, rfl, ?_, rfl⟩ <;> decide

/-- Claim C1 (amended): with the shared identity fields non-empty, validating
the second of two non-cancelled, non-amended Current records sharing the
(company, document_name, document_category) triple fails with a uniqueness
violation naming the first — unless the second is an unsubmitted draft with
any `replaces_document` set, or the second is submitted and its
`replaces_document` equals the first record's id. -/
theorem C1_uniqueness_amended (first second : TrackedDoc)
    (h1l : first.lifecycle_state = "Current") (h1d : first.docstatus ≠ 2)
    (h1s : first.status ≠ "Cancelled") (h1a : first.amended_from = none)
    (h2l : second.lifecycle_state = "Current") (h2a : second.amended_from = none)
    (hc : second.company = first.company)
    (hn : second.document_name = first.document_name)
    (hcat : second.document_category = first.document_category)
    (hc0 : second.company ≠ "") (hn0 : second.document_name ≠ "")
    (hcat0 : second.document_category ≠ "") (hne : first.name ≠ second.name) :
    validate_current_document_uniqueness [first] second =
      if second.docstatus = 0 ∧ second.replaces_document.isSome then .ok ()
      else if second.docstatus = 1 ∧ second.replaces_document = some first.name then .ok ()
      else .error (uniquenessMsg first.name) := by
  unfold validate_current_document_uniqueness
  rw [if_neg (by simp [h2l])]
  by_cases hd : second.docstatus = 0 ∧ second.replaces_document.isSome
  · rw [if_pos hd, if_pos hd]
  · rw [if_neg hd, if_neg hd]
    rw [if_neg (show ¬second.amended_from.isSome = true by simp [h2a])]
    rw [if_neg (show ¬(second.company = "" ∨ second.document_name = "" ∨
      second.document_category = "") by simp [hc0, hn0, hcat0])]
    have hpred : (first.company == second.company &&
        first.document_name == second.document_name &&
        first.document_category == second.document_category &&
        first.lifecycle_state == "Current" &&
        first.name != second.name && first.docstatus != 2 &&
        first.status != "Cancelled") = true := by
      simp [hc, hn, hcat, h1l, hne, h1d, h1s]
    simp [hpred, h1a]

/-- Second record for the C1 witness: submitted, same triple, no
`replaces_document` — validation must report the conflict with `c1First`. -/
def c1wSecond : TrackedDoc :=
  { newDocDefaults "DTL-0003" with
      document_name := "GST Registration", document_category := "License",
      company := "Acme", lifecycle_state := "Current", status := "Active",
      docstatus := 1 }

/-- Witness for the amended C1 at a concrete input. -/
theorem C1_witness :
    validate_current_document_uniqueness [c1First] c1wSecond =
      .error (uniquenessMsg c1First.name) := by
  have h := C1_uniqueness_amended c1First c1wSecond rfl (by decide) (by decide) rfl
    rfl rfl rfl rfl rfl (by decide) (by decide) (by decide) (by decide)
  rw [h]
  rw [if_neg (by decide), if_neg (by decide)]

/-- Claim C3: the scan includes a candidate exactly when it is expiry-based,
renewable, Current, submitted, its status is outside
{Draft, Renewed, Revoked, Cancelled}, it has an expiry date, and its
reminder date is set and has been reached; a log is created exactly when the
included set is non-empty, carries `company` and `log_date = today`, is
submitted, and has one line per included document with
`days_to_expiry = expiry − today` and the severity classified by its sign. -/
theorem C3_renewal_scan (store : List TrackedDoc) (company : String) (today : Int) :
    (∀ d, d ∈ get_documents_for_renewal store company today ↔
      d ∈ store ∧ d.company = company ∧ d.is_expiry_based = true ∧
      d.is_renewable = true ∧ d.lifecycle_state = "Current" ∧ d.docstatus = 1 ∧
      d.status ∉ ["Draft", "Renewed", "Revoked", "Cancelled"] ∧
      d.expiry_date.isSome = true ∧ ∃ r, d.remind_from_date = some r ∧ r ≤ today) ∧
    (create_renewal_log_for_company store company today = none ↔
      get_documents_for_renewal store company today = []) ∧
    (∀ log, create_renewal_log_for_company store company today = some log →
      log.company = company ∧ log.log_date = today ∧ log.docstatus = 1 ∧
      log.renewal_pending_items.length =
        (get_documents_for_renewal store company today).length) ∧
    (∀ log, create_renewal_log_for_company store company today = some log →
      ∀ item ∈ log.renewal_pending_items,
        ∃ d, d ∈ get_documents_for_renewal store company today ∧ ∃ e,
          d.expiry_date = some e ∧ item.document = d.name ∧
          item.days_to_expiry = e - today ∧
          item.severity = (if e - today < 0 then "Overdue"
            else if e - today = 0 then "Due Today" else "Due Soon")) := by
  refine ⟨?_, ?_, ?_, ?_⟩
  · intro d
    unfold get_documents_for_renewal
    rcases hrm : d.remind_from_date with _ | r
    · simp [List.mem_filter, hrm, List.contains]
    · simp only [List.mem_filter, hrm, List.contains, Bool.and_eq_true, beq_iff_eq,
        decide_eq_true_eq, Bool.not_eq_true', List.elem_eq_mem, decide_eq_false_iff_not,
        List.mem_cons, List.mem_singleton, not_or, List.not_mem_nil, not_false_iff,
        and_true, Option.some.injEq, exists_eq_left']
      tauto
  · simp only [create_renewal_log_for_company]
    by_cases hemp : (get_documents_for_renewal store company today).isEmpty
    · simp [hemp, List.isEmpty_iff.mp hemp]
    · have hne : get_documents_for_renewal store company today ≠ [] := by
        simpa [List.isEmpty_iff] using hemp
      simp [hemp, hne]
  · intro log hlog
    simp only [create_renewal_log_for_company] at hlog
    split_ifs at hlog with hemp
    injection hlog with hlog
    subst hlog
    exact ⟨rfl, rfl, rfl, List.length_map _ _⟩
  · intro log hlog item hitem
    simp only [create_renewal_log_for_company] at hlog
    split_ifs at hlog with hemp
    injection hlog with hlog
    subst hlog
    simp only [List.mem_map] at hitem
    obtain ⟨d, hd, rfl⟩ := hitem
    have hself := hd
    unfold get_documents_for_renewal at hself
    rw [List.mem_filter] at hself
    obtain ⟨-, hcond⟩ := hself
    rw [Bool.and_eq_true] at hcond
    obtain ⟨hexp, -⟩ := hcond
    rcases hex : d.expiry_date with _ | e
    · rw [hex] at hexp
      simp at hexp
    · refine ⟨d, hd, e, hex, rfl, ?_, ?_⟩
      · simp [renewalLine, hex]
      · simp [renewalLine, hex]

/-- Candidate document for the C3 witness: expiry today, reminder reached
two days ago. -/
def acmeDoc : TrackedDoc :=
  { newDocDefaults "ACME-DOC" with
      document_name := "Factory License", company := "Acme",
      is_expiry_based := true, is_renewable := true,
      lifecycle_state := "Current", docstatus := 1, status := "Active",
      expiry_date := some 100, remind_from_date := some 98 }

/-- The log the scan produces for Acme on day 100: one line, zero days to
expiry, severity "Due Today". -/
def acmeLog : RenewalLog :=
  { company := "Acme", log_date := 100,
    renewal_pending_items :=
      [{ document := "ACME-DOC", document_name := "Factory License",
         category := "", authority := none, issue_date := none,
         expiry_date := some 100, remind_from_date := some 98,
         days_to_expiry := 0, severity := "Due Today", owner_person := none,
         current_status := "Active" }],
    docstatus := 1 }

/-- Witness for C3 at the concrete Acme scenario. -/
theorem C3_witness :
    create_renewal_log_for_company [acmeDoc] "Acme" 100 = some acmeLog ∧
    acmeLog.company = "Acme" ∧ acmeLog.log_date = 100 ∧
    acmeLog.renewal_pending_items.length =
      (get_documents_for_renewal [acmeDoc] "Acme" 100).length := by
  have h := (C3_renewal_scan [acmeDoc] "Acme" 100).2.2.1 acmeLog (by rfl)
  exact ⟨by rfl, h.1, h.2.1, h.2.2.2⟩

/-- All document names present in the store. -/
def storeNames (store : List TrackedDoc) : Finset String :=
  (store.map (fun d => d.name)).toFinset

/-- Termination measure for the backward walk: store names not yet visited
(and distinct from the current one) count twice, plus one while the current
name is itself unvisited. -/
def rootMeasure (store : List TrackedDoc) (visited : Finset String)
    (current : TrackedDoc) : Nat :=
  2 * ((storeNames store) \ (insert current.name visited)).card +
    (if current.name ∈ visited then 0 else 1)

/-- Each executed loop iteration of `get_root_document` strictly decreases
`rootMeasure`. -/
theorem rootMeasure_decreases (store : List TrackedDoc) (visited : Finset String)
    (current nxt : TrackedDoc) (prev : String)
    (hrep : current.replaces_document = some prev) (hnv : prev ∉ visited)
    (hget : getDoc store prev = some nxt) :
    rootMeasure store (insert current.name visited) nxt <
      rootMeasure store visited current := by
  obtain ⟨hname, hmem⟩ := getDoc_eq_some store prev nxt hget
  have hpN : prev ∈ storeNames store := by
    unfold storeNames
    rw [List.mem_toFinset, List.mem_map]
    exact ⟨nxt, hmem, hname⟩
  unfold rootMeasure
  rw [hname]
  by_cases hpc : prev = current.name
  · subst hpc
    rw [Finset.insert_idem, if_pos (Finset.mem_insert_self _ _), if_neg hnv]
    omega
  · have hsub : storeNames store \ insert prev (insert current.name visited) ⊆
        storeNames store \ insert current.name visited :=
      Finset.sdiff_subset_sdiff (le_refl _) (Finset.subset_insert _ _)
    have hpmem : prev ∈ storeNames store \ insert current.name visited := by
      rw [Finset.mem_sdiff, Finset.mem_insert]
      exact ⟨hpN, by push_neg; exact ⟨hpc, hnv⟩⟩
    have hpnot : prev ∉ storeNames store \ insert prev (insert current.name visited) := by
      simp [Finset.mem_sdiff]
    have hlt : (storeNames store \ insert prev (insert current.name visited)).card <
        (storeNames store \ insert current.name visited).card :=
      Finset.card_lt_card ((Finset.ssubset_iff_of_subset hsub).mpr ⟨prev, hpmem, hpnot⟩)
    have hle : (if prev ∈ insert current.name visited then 0 else 1) ≤ 1 := by
      split_ifs <;> omega
    omega

/-- The backward walk stabilizes: any two fuels above the measure agree. -/
theorem get_root_documentFuel_stable (store : List TrackedDoc) :
    ∀ (n : Nat) (visited : Finset String) (current : TrackedDoc) (f₁ f₂ : Nat),
      rootMeasure store visited current ≤ n →
      rootMeasure store visited current < f₁ →
      rootMeasure store visited current < f₂ →
      get_root_documentFuel f₁ store visited current =
        get_root_documentFuel f₂ store visited current := by
  intro n
  induction n with
  | zero =>
    intro visited current f₁ f₂ hn h1 h2
    obtain ⟨a, rfl⟩ : ∃ a, f₁ = a + 1 := ⟨f₁ - 1, by omega⟩
    obtain ⟨b, rfl⟩ : ∃ b, f₂ = b + 1 := ⟨f₂ - 1, by omega⟩
    simp only [get_root_documentFuel]
    rcases hrep : current.replaces_document with _ | prev
    · rfl
    · dsimp only []
      split_ifs with hv
      · rfl
      · rcases hget : getDoc store prev with _ | nxt <;> dsimp only []
        exfalso
        have := rootMeasure_decreases store visited current nxt prev hrep hv hget
        omega
  | succ n ih =>
    intro visited current f₁ f₂ hn h1 h2
    obtain ⟨a, rfl⟩ : ∃ a, f₁ = a + 1 := ⟨f₁ - 1, by omega⟩
    obtain ⟨b, rfl⟩ : ∃ b, f₂ = b + 1 := ⟨f₂ - 1, by omega⟩
    simp only [get_root_documentFuel]
    rcases hrep : current.replaces_document with _ | prev
    · rfl
    · dsimp only []
      split_ifs with hv
      · rfl
      · rcases hget : getDoc store prev with _ | nxt <;> dsimp only []
        have hdec := rootMeasure_decreases store visited current nxt prev hrep hv hget
        exact ih (insert current.name visited) nxt a b (by omega) (by omega) (by omega)

/-- `rootFuelBound` always exceeds the starting measure. -/
theorem rootMeasure_lt_bound (store : List TrackedDoc) (self : TrackedDoc) :
    rootMeasure store ∅ self < rootFuelBound store := by
  unfold rootMeasure rootFuelBound
  have h1 : (storeNames store \ insert self.name ∅).card ≤ store.length := by
    calc (storeNames store \ insert self.name ∅).card
        ≤ (storeNames store).card := Finset.card_le_card (Finset.sdiff_subset)
      _ ≤ (store.map (fun d => d.name)).length := List.toFinset_card_le _
      _ = store.length := List.length_map _ _
  split_ifs <;> omega

/-- First node of the cyclic pair used against the forward walk. -/
def cycA : TrackedDoc := { newDocDefaults "A" with replaces_document := some "B" }

/-- Second node of the cyclic pair: together with `cycA` the
`replaces_document` references form a two-cycle. -/
def cycB : TrackedDoc := { newDocDefaults "B" with replaces_document := some "A" }

/-- A store whose renewal chain contains a reference cycle. -/
def cycStore : List TrackedDoc := [cycA, cycB]

/-- On the cyclic store the forward walk never breaks out, whatever the fuel. -/
theorem get_chain_cyc_runs_forever :
    ∀ (fuel : Nat) (cur : String) (chain : List String), cur = "A" ∨ cur = "B" →
      get_chain_documentsFuel fuel cycStore cur chain = none := by
  intro fuel
  induction fuel with
  | zero =>
    intro cur chain hcur
    rfl
  | succ f ih =>
    intro cur chain hcur
    rcases hcur with rfl | rfl
    · have hsucc : successor cycStore "A" = some "B" := by rfl
      simp only [get_chain_documentsFuel, hsucc]
      exact ih "B" _ (Or.inr rfl)
    · have hsucc : successor cycStore "B" = some "A" := by rfl
      simp only [get_chain_documentsFuel, hsucc]
      exact ih "A" _ (Or.inl rfl)

/-- Counterexample to C9 as stated: on a store whose `replaces_document`
references form a cycle, the forward traversal `get_chain_documents` never
terminates — it has no visited-set guard, unlike `get_root_document`. -/
theorem C9_counterexample :
    cycA.replaces_document = some cycB.name ∧
    cycB.replaces_document = some cycA.name ∧
    ¬ chainTerminates cycStore cycA.name := by
  refine ⟨rfl, rfl, ?_⟩
  rintro ⟨fuel, chain, hchain⟩
  rw [show cycA.name = "A" from rfl] at hchain
  rw [get_chain_cyc_runs_forever fuel "A" ["A"] (Or.inl rfl)] at hchain
  simp at hchain

/-- Root of the acyclic 3-link chain A←B←C. -/
def chA : TrackedDoc := newDocDefaults "CH-A"

/-- Middle link: replaces `chA`. -/
def chB : TrackedDoc := { newDocDefaults "CH-B" with replaces_document := some "CH-A" }

/-- Latest link: replaces `chB`. -/
def chC : TrackedDoc := { newDocDefaults "CH-C" with replaces_document := some "CH-B" }

/-- The acyclic 3-link chain store. -/
def chainStore : List TrackedDoc := [chA, chB, chC]

/-- Claim C9 (amended): the backward walk `get_root_document` terminates on
every store — cyclic or broken references included — in that any two
sufficient fuels give the same result; the forward walk stops when no
successor exists, and on the acyclic 3-link chain A←B←C the walk from C
reaches root A and `get_chain_documents A` returns [A, B, C]; the forward
walk, however, has no cycle guard and need not terminate on a cyclic store
(see the counterexample). -/
theorem C9_traversal_amended (store : List TrackedDoc) (self : TrackedDoc) (f₁ f₂ : Nat)
    (h₁ : rootFuelBound store ≤ f₁) (h₂ : rootFuelBound store ≤ f₂) :
    (get_root_documentFuel f₁ store ∅ self = get_root_documentFuel f₂ store ∅ self) ∧
    get_root_document chainStore chC = chA ∧
    get_chain_documentsFuel 8 chainStore "CH-A" ["CH-A"] =
      some ["CH-A", "CH-B", "CH-C"] ∧
    chainTerminates chainStore "CH-A" := by
  refine ⟨?_, by rfl, by rfl, ⟨8, _, by rfl⟩⟩
  have hb := rootMeasure_lt_bound store self
  exact get_root_documentFuel_stable store (rootMeasure store ∅ self) ∅ self f₁ f₂
    le_rfl (by omega) (by omega)

/-- Witness for the amended C9 at a concrete input: the cyclic store, where
the backward walk still stabilizes. -/
theorem C9_witness :
    get_root_documentFuel 6 cycStore ∅ cycA = get_root_documentFuel 11 cycStore ∅ cycA :=
  (C9_traversal_amended cycStore cycA 6 11 (by decide) (by decide)).1
